import Mathlib

/-!
Verification of the syntax-profile builder in
`src/styles/src/theme/syntax.ts` (the default-style synthesis algorithm
`build_default_syntax`, the override merger `merge_syntax`, and the
top-level `build_syntax`).

The TypeScript runtime values are modelled by `Jval`, a JSON-like value
type whose objects are insertion-ordered association lists, exactly as
JavaScript objects behave at runtime (string keys, insertion order,
first assignment fixes the position of a key).  Profiles, style records
and override objects are all `Jval.obj` values, since at runtime the
TypeScript interfaces `Syntax` / `SyntaxHighlightStyle` are erased.
-/

set_option autoImplicit false

/-- A JavaScript runtime value as used by the theme code: strings
(colors, font weights), booleans (underline / italic flags), arrays and
plain objects.  Objects are insertion-ordered association lists. -/
inductive Jval where
  | str : String → Jval
  | bool : Bool → Jval
  | arr : List Jval → Jval
  | obj : List (String × Jval) → Jval

/-- JavaScript property lookup on an object's field list: the value of
the first field with the given key, if any. -/
def jlookup (key : String) : List (String × Jval) → Option Jval
  | [] => none
  | (k, v) :: rest => if k = key then some v else jlookup key rest

mutual

/-- Models the `deepmerge` library as configured at the call site in
`merge_syntax` (src/styles/src/theme/syntax.ts lines 302-311): plain
objects are merged key by key, arrays are merged with the `arrayMerge`
option passed there (destination elements followed by source elements),
and any other source value replaces the destination value. -/
def dmerge : Jval → Jval → Jval
  | Jval.obj d, Jval.obj s =>
      Jval.obj (dmergeFields d s ++ s.filter (fun q => (jlookup q.1 d).isNone))
  | Jval.arr d, Jval.arr s => Jval.arr (d ++ s)
  | _, s => s

/-- The destination's fields in their original order, each merged with
the matching source field when one exists. -/
def dmergeFields : List (String × Jval) → List (String × Jval) → List (String × Jval)
  | [], _ => []
  | (k, v) :: rest, s =>
      (match jlookup k s with
       | some w => (k, dmerge v w)
       | none => (k, v)) :: dmergeFields rest s

end

example :
    dmerge
      (Jval.obj [("a", Jval.str "x"), ("b", Jval.bool false)])
      (Jval.obj [("b", Jval.bool true), ("c", Jval.str "y")]) =
    Jval.obj [("a", Jval.str "x"), ("b", Jval.bool true), ("c", Jval.str "y")] := by
  rfl

example :
    dmerge (Jval.arr [Jval.str "p"]) (Jval.arr [Jval.str "q"]) =
    Jval.arr [Jval.str "p", Jval.str "q"] := by
  rfl

example :
    dmerge
      (Jval.obj [("a", Jval.obj [("c", Jval.str "old"), ("w", Jval.str "normal")])])
      (Jval.obj [("a", Jval.obj [("c", Jval.str "new")])]) =
    Jval.obj [("a", Jval.obj [("c", Jval.str "new"), ("w", Jval.str "normal")])] := by
  rfl

/-- Field access on a profile / style object: `getField p k` is the value
of property `k` when `p` is an object that carries it. -/
def getField (p : Jval) (key : String) : Option Jval :=
  match p with
  | Jval.obj fields => jlookup key fields
  | _ => none

/-- Attribute access through a profile: the value of attribute `a` of
style category `k`. -/
def getAttr (p : Jval) (k a : String) : Option Jval :=
  (getField p k).bind (fun st => getField st a)

/-- The named color ramps a color scheme exposes (the minimum ramp set
the builder samples): each is a function from a lightness scalar to the
hex color string the chroma color's `.hex()` call produces. -/
structure Ramps where
  neutral : ℚ → String
  blue : ℚ → String
  orange : ℚ → String
  green : ℚ → String
  cyan : ℚ → String
  yellow : ℚ → String

/-- A color scheme as consumed by `build_syntax`: the ramp set plus the
optional partial override object (the scheme's `syntax` property,
`ThemeSyntax`); `none` models a falsy (absent) override. -/
structure ColorScheme where
  ramps : Ramps
  override : Option Jval

/-- The blend utility used for the predictive color: models
`chroma.mix(a, b, weight, "lch")` followed by `.hex()`.  The chroma
library is external to the repository, so the mixer is an abstract
parameter of the builder; every theorem below is parametric in it. -/
abbrev Mixer : Type := String → String → ℚ → String

/-- Modelled from the spec: the font-weight vocabulary `font_weights`
comes from `../common`, which is not part of the covered source; the
spec describes weights as an enumerated vocabulary whose member used
here is bold (`"emphasis.strong"` and `title` set weight = bold). -/
def font_weights_bold : Jval := Jval.str "bold"

/-- `default_syntax_highlight_style` (lines 119-123): the attribute
defaults every category was meant to start from. -/
def default_highlight_style : List (String × Jval) :=
  [("weight", Jval.str "normal"),
   ("underline", Jval.bool false),
   ("italic", Jval.bool false)]

/-- The runtime value of `Object.keys({} as Syntax)` (line 133): the
cast is a TypeScript type ascription, erased at runtime, so the
expression enumerates the keys of the empty object literal — there are
none. -/
def object_keys_of_empty_literal : List String := []

/-- The temporary `syntax` object after the initialisation loop (lines
128-137): one copy of the attribute defaults per enumerated key. -/
def seed_fields : List (String × Jval) :=
  object_keys_of_empty_literal.map (fun k => (k, Jval.obj default_highlight_style))

/-- JavaScript object-literal assignment: setting key `k` overwrites the
first existing field with that key in place, otherwise appends. -/
def assign (fields : List (String × Jval)) (k : String) (v : Jval) :
    List (String × Jval) :=
  if fields.any (fun p => p.1 == k) then
    fields.map (fun p => if p.1 == k then (k, v) else p)
  else
    fields ++ [(k, v)]

/-- The object literal `\x7b ...base, k1: v1, ... \x7d`: the spread of
`base` followed by the literal's own assignments in order. -/
def spread (base : List (String × Jval)) (updates : List (String × Jval)) :
    List (String × Jval) :=
  updates.foldl (fun acc p => assign acc p.1 p.2) base

/-- The `color` palette object (lines 150-168): the semantic colors
sampled from the scheme's ramps, plus the blended predictive color
(lines 141-148). -/
structure Palette where
  primary : String
  comment : String
  punctuation : String
  predictive : String
  emphasis : String
  string : String
  function_ : String
  type_ : String
  constructor_ : String
  variant : String
  property : String
  enum_ : String
  operator : String
  number : String
  boolean : String
  constant : String
  keyword : String

/-- Samples the palette exactly as lines 141-168 do.  `mix a b w` stands
for `chroma.mix(a, b, w, "lch").hex()`. -/
def palette (mix : Mixer) (color_scheme : ColorScheme) : Palette :=
  { primary := color_scheme.ramps.neutral 1
    comment := color_scheme.ramps.neutral 0.71
    punctuation := color_scheme.ramps.neutral 0.86
    predictive :=
      mix (color_scheme.ramps.neutral 0.4) (color_scheme.ramps.blue 0.4) 0.45
    emphasis := color_scheme.ramps.blue 0.5
    string := color_scheme.ramps.orange 0.5
    function_ := color_scheme.ramps.yellow 0.5
    type_ := color_scheme.ramps.cyan 0.5
    constructor_ := color_scheme.ramps.blue 0.5
    variant := color_scheme.ramps.blue 0.5
    property := color_scheme.ramps.blue 0.5
    enum_ := color_scheme.ramps.orange 0.5
    operator := color_scheme.ramps.orange 0.5
    number := color_scheme.ramps.green 0.5
    boolean := color_scheme.ramps.green 0.5
    constant := color_scheme.ramps.green 0.5
    keyword := color_scheme.ramps.blue 0.5 }

/-- The fields of the `default_syntax` object literal (lines 171-289),
in source order, with each style's attributes in source order. -/
def default_fields (mix : Mixer) (color_scheme : ColorScheme) :
    List (String × Jval) :=
  let c := palette mix color_scheme
  [("comment", Jval.obj [("color", Jval.str c.comment)]),
   ("comment.doc", Jval.obj [("color", Jval.str c.comment)]),
   ("primary", Jval.obj [("color", Jval.str c.primary)]),
   ("predictive", Jval.obj [("color", Jval.str c.predictive),
                            ("italic", Jval.bool true)]),
   ("emphasis", Jval.obj [("color", Jval.str c.emphasis)]),
   ("emphasis.strong", Jval.obj [("color", Jval.str c.emphasis),
                                 ("weight", font_weights_bold)]),
   ("title", Jval.obj [("color", Jval.str c.primary),
                       ("weight", font_weights_bold)]),
   ("link_uri", Jval.obj [("color", Jval.str (color_scheme.ramps.green 0.5)),
                          ("underline", Jval.bool true)]),
   ("link_text", Jval.obj [("color", Jval.str (color_scheme.ramps.orange 0.5)),
                           ("italic", Jval.bool true)]),
   ("text.literal", Jval.obj [("color", Jval.str c.string)]),
   ("punctuation", Jval.obj [("color", Jval.str c.punctuation)]),
   ("punctuation.bracket", Jval.obj [("color", Jval.str c.punctuation)]),
   ("punctuation.delimiter", Jval.obj [("color", Jval.str c.punctuation)]),
   ("punctuation.special",
    Jval.obj [("color", Jval.str (color_scheme.ramps.neutral 0.86))]),
   ("punctuation.list_marker", Jval.obj [("color", Jval.str c.punctuation)]),
   ("string", Jval.obj [("color", Jval.str c.string)]),
   ("string.special", Jval.obj [("color", Jval.str c.string)]),
   ("string.special.symbol", Jval.obj [("color", Jval.str c.string)]),
   ("string.escape", Jval.obj [("color", Jval.str c.comment)]),
   ("string.regex", Jval.obj [("color", Jval.str c.string)]),
   ("constructor", Jval.obj [("color", Jval.str (color_scheme.ramps.blue 0.5))]),
   ("variant", Jval.obj [("color", Jval.str (color_scheme.ramps.blue 0.5))]),
   ("type", Jval.obj [("color", Jval.str c.type_)]),
   ("variable", Jval.obj [("color", Jval.str c.primary)]),
   ("label", Jval.obj [("color", Jval.str (color_scheme.ramps.blue 0.5))]),
   ("tag", Jval.obj [("color", Jval.str (color_scheme.ramps.blue 0.5))]),
   ("attribute", Jval.obj [("color", Jval.str (color_scheme.ramps.blue 0.5))]),
   ("property", Jval.obj [("color", Jval.str (color_scheme.ramps.blue 0.5))]),
   ("constant", Jval.obj [("color", Jval.str c.constant)]),
   ("keyword", Jval.obj [("color", Jval.str c.keyword)]),
   ("enum", Jval.obj [("color", Jval.str c.enum_)]),
   ("operator", Jval.obj [("color", Jval.str c.operator)]),
   ("number", Jval.obj [("color", Jval.str c.number)]),
   ("boolean", Jval.obj [("color", Jval.str c.boolean)]),
   ("function", Jval.obj [("color", Jval.str c.function_)]),
   ("preproc", Jval.obj [("color", Jval.str c.primary)]),
   ("embedded", Jval.obj [("color", Jval.str c.primary)])]

/-- `build_default_syntax` (lines 125-292): the spread of the seeded
temporary object followed by the explicit assignments of the
`default_syntax` literal. -/
def build_default_profile (mix : Mixer) (color_scheme : ColorScheme) : Jval :=
  Jval.obj (spread seed_fields (default_fields mix color_scheme))

/-- `merge_syntax` (lines 294-312): identity when the scheme's override
is falsy, otherwise `deepmerge` with the array-append option. -/
def merge_profile (default_profile : Jval) (color_scheme : ColorScheme) : Jval :=
  match color_scheme.override with
  | none => default_profile
  | some o => dmerge default_profile o

/-- `build_syntax` (lines 314-320). -/
def build_profile (mix : Mixer) (color_scheme : ColorScheme) : Jval :=
  merge_profile (build_default_profile mix color_scheme) color_scheme

/-- The non-optional keys of the `Syntax` interface (lines 13-115): the
categories declared without a `?` marker. -/
def required_categories : List String :=
  ["comment", "comment.doc", "primary", "predictive",
   "emphasis", "emphasis.strong", "title", "link_uri", "link_text",
   "text.literal",
   "punctuation", "punctuation.bracket", "punctuation.delimiter",
   "punctuation.special", "punctuation.list_marker",
   "string", "string.special",
   "constructor", "variant", "type",
   "variable", "label", "tag", "attribute", "property", "constant",
   "keyword", "enum", "operator", "number", "boolean",
   "function", "preproc", "embedded"]

/-- The optional categories of the `Syntax` interface that the
`default_syntax` literal never assigns. -/
def unassigned_optional_categories : List String :=
  ["function.definition", "function.method", "function.builtin",
   "function.special.definition", "function.method.builtin",
   "constant.builtin", "type.builtin", "variable.special"]

theorem assign_of_not_mem (fields : List (String × Jval)) (k : String) (v : Jval)
    (h : ∀ p ∈ fields, p.1 ≠ k) : assign fields k v = fields ++ [(k, v)] := by
  have hc : (fields.any fun p => p.1 == k) = false := by
    apply List.any_eq_false.mpr
    intro p hp
    simpa using h p hp
  simp [assign, hc]

theorem spread_eq_append (us : List (String × Jval)) :
    ∀ (base : List (String × Jval)),
      (∀ u ∈ us, ∀ p ∈ base, p.1 ≠ u.1) →
      us.Pairwise (fun a b => a.1 ≠ b.1) →
      spread base us = base ++ us := by
  induction us with
  | nil => intro base _ _; simp [spread]
  | cons u us ih =>
    intro base hbase hnodup
    have hstep : assign base u.1 u.2 = base ++ [u] := by
      rw [assign_of_not_mem base u.1 u.2
        (fun p hp => hbase u (List.mem_cons_self u us) p hp)]
    have hbase' : ∀ v ∈ us, ∀ p ∈ base ++ [u], p.1 ≠ v.1 := by
      intro v hv p hp
      rcases List.mem_append.mp hp with hpb | hpu
      · exact hbase v (List.mem_cons_of_mem u hv) p hpb
      · rcases List.mem_singleton.mp hpu with rfl
        exact (List.pairwise_cons.mp hnodup).1 v hv
    have : spread base (u :: us) = spread (base ++ [u]) us := by
      simp [spread, hstep]
    rw [this, ih (base ++ [u]) hbase' (List.pairwise_cons.mp hnodup).2]
    simp

/-- The keys of the `default_syntax` literal, in source order. -/
theorem default_fields_keys (mix : Mixer) (color_scheme : ColorScheme) :
    (default_fields mix color_scheme).map Prod.fst =
      ["comment", "comment.doc", "primary", "predictive",
       "emphasis", "emphasis.strong", "title", "link_uri", "link_text",
       "text.literal",
       "punctuation", "punctuation.bracket", "punctuation.delimiter",
       "punctuation.special", "punctuation.list_marker",
       "string", "string.special", "string.special.symbol",
       "string.escape", "string.regex",
       "constructor", "variant", "type",
       "variable", "label", "tag", "attribute", "property", "constant",
       "keyword", "enum", "operator", "number", "boolean",
       "function", "preproc", "embedded"] := rfl

theorem default_fields_nodup_keys (mix : Mixer) (color_scheme : ColorScheme) :
    (default_fields mix color_scheme).Pairwise (fun a b => a.1 ≠ b.1) := by
  have h : ((default_fields mix color_scheme).map Prod.fst).Pairwise
      (fun a b => a ≠ b) := by
    rw [default_fields_keys]
    decide
  exact List.pairwise_map.mp h

/-- With the runtime key enumeration empty, the spread contributes
nothing: the built profile is exactly the literal's fields. -/
theorem build_default_profile_eq (mix : Mixer) (color_scheme : ColorScheme) :
    build_default_profile mix color_scheme =
      Jval.obj (default_fields mix color_scheme) := by
  unfold build_default_profile
  rw [spread_eq_append (default_fields mix color_scheme) seed_fields
    (by intro u _ p hp; simp [seed_fields, object_keys_of_empty_literal] at hp)
    (default_fields_nodup_keys mix color_scheme)]
  simp [seed_fields, object_keys_of_empty_literal]

theorem jlookup_append (k : String) (a b : List (String × Jval)) :
    jlookup k (a ++ b) =
      match jlookup k a with
      | some v => some v
      | none => jlookup k b := by
  induction a with
  | nil => simp [jlookup]
  | cons p rest ih =>
    obtain ⟨k', v'⟩ := p
    by_cases h : k' = k
    · simp [jlookup, h]
    · simp [jlookup, h, ih]

theorem jlookup_dmergeFields (k : String) (d s : List (String × Jval)) :
    jlookup k (dmergeFields d s) =
      (jlookup k d).map (fun v =>
        match jlookup k s with
        | some w => dmerge v w
        | none => v) := by
  induction d with
  | nil => simp [dmergeFields, jlookup]
  | cons p rest ih =>
    obtain ⟨k', v'⟩ := p
    by_cases h : k' = k
    · subst h
      cases hs : jlookup k' s with
      | none => simp [dmergeFields, jlookup, hs]
      | some w => simp [dmergeFields, jlookup, hs]
    · cases hs : jlookup k' s with
      | none => simp [dmergeFields, jlookup, hs, h, ih]
      | some w => simp [dmergeFields, jlookup, hs, h, ih]

theorem jlookup_filter_of_none (k : String) (d s : List (String × Jval))
    (h : jlookup k d = none) :
    jlookup k (s.filter (fun q => (jlookup q.1 d).isNone)) = jlookup k s := by
  induction s with
  | nil => simp
  | cons q rest ih =>
    obtain ⟨k', v'⟩ := q
    by_cases hk : k' = k
    · subst hk
      simp [List.filter, h, jlookup]
    · cases hq : (jlookup k' d).isNone with
      | true => simp [List.filter, hq, jlookup, hk, ih]
      | false => simp [List.filter, hq, jlookup, hk, ih]

/-- Property lookup through the object-against-object case of the merge:
a key found in both sides maps to the merge of the two values, a key
found only on one side keeps that side's value. -/
theorem getField_dmerge_obj (d s : List (String × Jval)) (k : String) :
    getField (dmerge (Jval.obj d) (Jval.obj s)) k =
      match jlookup k d, jlookup k s with
      | some v, some w => some (dmerge v w)
      | some v, none => some v
      | none, r => r := by
  show jlookup k (dmergeFields d s ++ _) = _
  rw [jlookup_append, jlookup_dmergeFields]
  cases hd : jlookup k d with
  | some v =>
    cases hs : jlookup k s with
    | some w => simp [hs]
    | none => simp [hs]
  | none =>
    simp only [Option.map_none']
    exact jlookup_filter_of_none k d s hd

theorem dmerge_str_right (v : Jval) (s : String) :
    dmerge v (Jval.str s) = Jval.str s := by
  cases v <;> rfl

theorem dmerge_bool_right (v : Jval) (b : Bool) :
    dmerge v (Jval.bool b) = Jval.bool b := by
  cases v <;> rfl

theorem jlookup_eq_some_mem {k : String} {l : List (String × Jval)} {v : Jval}
    (h : jlookup k l = some v) : (k, v) ∈ l := by
  induction l with
  | nil => simp [jlookup] at h
  | cons p rest ih =>
    obtain ⟨k', v'⟩ := p
    by_cases hk : k' = k
    · subst hk
      simp [jlookup] at h
      subst h
      exact List.mem_cons_self _ _
    · simp [jlookup, hk] at h
      exact List.mem_cons_of_mem _ (ih h)

/-- A reference ramp set with distinguishable neutral and blue ramps,
matching the spec's example scenario: neutral at full lightness is
`#FFFFFF` and blue at 0.5 is `#3B82F6`. -/
def ref_ramps : Ramps :=
  { neutral := fun _ => "#FFFFFF"
    blue := fun _ => "#3B82F6"
    orange := fun _ => "#F59E0B"
    green := fun _ => "#22C55E"
    cyan := fun _ => "#06B6D4"
    yellow := fun _ => "#EAB308" }

/-- A reference blend result for the predictive color: a fixed output
standing for the LCH mix of the reference neutral and blue samples,
distinct from every directly sampled reference color. -/
def ref_mix : Mixer := fun _ _ _ => "#5F7BB8"

/-- The reference scheme with no override data. -/
def ref_scheme : ColorScheme := { ramps := ref_ramps, override := none }

/-- The reference scheme carrying a given override object. -/
def ref_scheme_with (o : Jval) : ColorScheme :=
  { ramps := ref_ramps, override := some o }

example : ref_ramps.neutral 1 = "#FFFFFF" := rfl

example : ref_ramps.neutral 0.71 = "#FFFFFF" := rfl

example :
    getAttr (build_default_profile ref_mix ref_scheme) "comment" "color" =
      some (Jval.str "#FFFFFF") := by
  rw [build_default_profile_eq]
  rfl

/-- C6: `build_default_syntax` samples the palette exactly as specified:
primary / variable / preproc / embedded from neutral at 1, comment and
"comment.doc" from neutral at 0.71, the punctuation categories from
neutral at 0.86, constructor / variant / property / tag / attribute /
label / keyword from blue at 0.5, enum / operator / string /
"string.special" / "text.literal" from orange at 0.5, number / boolean /
constant from green at 0.5, function from yellow at 0.5 and type from
cyan at 0.5; consequently a scheme whose neutral ramp at 1 is "#FFFFFF"
and whose blue ramp at 0.5 is "#3B82F6" gets primary.color = "#FFFFFF"
and keyword.color = "#3B82F6". -/
theorem c6_palette_sampling :
    (∀ (mix : Mixer) (cs : ColorScheme),
      getAttr (build_default_profile mix cs) "primary" "color" =
        some (Jval.str (cs.ramps.neutral 1)) ∧
      getAttr (build_default_profile mix cs) "variable" "color" =
        some (Jval.str (cs.ramps.neutral 1)) ∧
      getAttr (build_default_profile mix cs) "preproc" "color" =
        some (Jval.str (cs.ramps.neutral 1)) ∧
      getAttr (build_default_profile mix cs) "embedded" "color" =
        some (Jval.str (cs.ramps.neutral 1)) ∧
      getAttr (build_default_profile mix cs) "comment" "color" =
        some (Jval.str (cs.ramps.neutral 0.71)) ∧
      getAttr (build_default_profile mix cs) "comment.doc" "color" =
        some (Jval.str (cs.ramps.neutral 0.71)) ∧
      getAttr (build_default_profile mix cs) "punctuation" "color" =
        some (Jval.str (cs.ramps.neutral 0.86)) ∧
      getAttr (build_default_profile mix cs) "punctuation.bracket" "color" =
        some (Jval.str (cs.ramps.neutral 0.86)) ∧
      getAttr (build_default_profile mix cs) "punctuation.delimiter" "color" =
        some (Jval.str (cs.ramps.neutral 0.86)) ∧
      getAttr (build_default_profile mix cs) "punctuation.special" "color" =
        some (Jval.str (cs.ramps.neutral 0.86)) ∧
      getAttr (build_default_profile mix cs) "punctuation.list_marker" "color" =
        some (Jval.str (cs.ramps.neutral 0.86)) ∧
      getAttr (build_default_profile mix cs) "constructor" "color" =
        some (Jval.str (cs.ramps.blue 0.5)) ∧
      getAttr (build_default_profile mix cs) "variant" "color" =
        some (Jval.str (cs.ramps.blue 0.5)) ∧
      getAttr (build_default_profile mix cs) "property" "color" =
        some (Jval.str (cs.ramps.blue 0.5)) ∧
      getAttr (build_default_profile mix cs) "tag" "color" =
        some (Jval.str (cs.ramps.blue 0.5)) ∧
      getAttr (build_default_profile mix cs) "attribute" "color" =
        some (Jval.str (cs.ramps.blue 0.5)) ∧
      getAttr (build_default_profile mix cs) "label" "color" =
        some (Jval.str (cs.ramps.blue 0.5)) ∧
      getAttr (build_default_profile mix cs) "keyword" "color" =
        some (Jval.str (cs.ramps.blue 0.5)) ∧
      getAttr (build_default_profile mix cs) "enum" "color" =
        some (Jval.str (cs.ramps.orange 0.5)) ∧
      getAttr (build_default_profile mix cs) "operator" "color" =
        some (Jval.str (cs.ramps.orange 0.5)) ∧
      getAttr (build_default_profile mix cs) "string" "color" =
        some (Jval.str (cs.ramps.orange 0.5)) ∧
      getAttr (build_default_profile mix cs) "string.special" "color" =
        some (Jval.str (cs.ramps.orange 0.5)) ∧
      getAttr (build_default_profile mix cs) "text.literal" "color" =
        some (Jval.str (cs.ramps.orange 0.5)) ∧
      getAttr (build_default_profile mix cs) "number" "color" =
        some (Jval.str (cs.ramps.green 0.5)) ∧
      getAttr (build_default_profile mix cs) "boolean" "color" =
        some (Jval.str (cs.ramps.green 0.5)) ∧
      getAttr (build_default_profile mix cs) "constant" "color" =
        some (Jval.str (cs.ramps.green 0.5)) ∧
      getAttr (build_default_profile mix cs) "function" "color" =
        some (Jval.str (cs.ramps.yellow 0.5)) ∧
      getAttr (build_default_profile mix cs) "type" "color" =
        some (Jval.str (cs.ramps.cyan 0.5))) ∧
    (∀ (mix : Mixer) (cs : ColorScheme),
      cs.ramps.neutral 1 = "#FFFFFF" →
      cs.ramps.blue 0.5 = "#3B82F6" →
      getAttr (build_default_profile mix cs) "primary" "color" =
        some (Jval.str "#FFFFFF") ∧
      getAttr (build_default_profile mix cs) "keyword" "color" =
        some (Jval.str "#3B82F6")) := by
  constructor
  · intro mix cs
    rw [build_default_profile_eq]
    exact ⟨rfl, rfl, rfl, rfl, rfl, rfl, rfl, rfl, rfl, rfl, rfl, rfl, rfl,
      rfl, rfl, rfl, rfl, rfl, rfl, rfl, rfl, rfl, rfl, rfl, rfl, rfl, rfl,
      rfl⟩
  · intro mix cs h1 h2
    rw [build_default_profile_eq]
    exact ⟨by rw [← h1]; rfl, by rw [← h2]; rfl⟩

/-- C6 witness: the reference scheme satisfies both hypotheses of the
example scenario and the theorem yields the stated colors there. -/
theorem c6_palette_sampling_witness :
    ref_scheme.ramps.neutral 1 = "#FFFFFF" ∧
    ref_scheme.ramps.blue 0.5 = "#3B82F6" ∧
    (getAttr (build_default_profile ref_mix ref_scheme) "primary" "color" =
        some (Jval.str "#FFFFFF") ∧
      getAttr (build_default_profile ref_mix ref_scheme) "keyword" "color" =
        some (Jval.str "#3B82F6")) :=
  ⟨rfl, rfl, c6_palette_sampling.2 ref_mix ref_scheme rfl rfl⟩

/-- C8: in every default profile, predictive is italic; "emphasis.strong"
and title are bold; link_uri is underlined and colored from the green
ramp at 0.5; link_text is italic and colored from the orange ramp at
0.5; and "string.escape" shares the comment color. -/
theorem c8_attribute_flags (mix : Mixer) (cs : ColorScheme) :
    getAttr (build_default_profile mix cs) "predictive" "italic" =
      some (Jval.bool true) ∧
    getAttr (build_default_profile mix cs) "emphasis.strong" "weight" =
      some (Jval.str "bold") ∧
    getAttr (build_default_profile mix cs) "title" "weight" =
      some (Jval.str "bold") ∧
    getAttr (build_default_profile mix cs) "link_uri" "underline" =
      some (Jval.bool true) ∧
    getAttr (build_default_profile mix cs) "link_uri" "color" =
      some (Jval.str (cs.ramps.green 0.5)) ∧
    getAttr (build_default_profile mix cs) "link_text" "italic" =
      some (Jval.bool true) ∧
    getAttr (build_default_profile mix cs) "link_text" "color" =
      some (Jval.str (cs.ramps.orange 0.5)) ∧
    getAttr (build_default_profile mix cs) "string.escape" "color" =
      getAttr (build_default_profile mix cs) "comment" "color" := by
  rw [build_default_profile_eq]
  exact ⟨rfl, rfl, rfl, rfl, rfl, rfl, rfl, rfl⟩

/-- C7: the predictive color is the LCH blend (modelled by the abstract
mixer standing for `chroma.mix(·, ·, 0.45, "lch")`) of the neutral ramp
at 0.4 with the blue ramp at 0.4; and on the reference scheme, whose
neutral and blue ramps are distinguishable and whose blend output is the
reference blend value, the predictive color differs from the primary,
emphasis and comment colors. -/
theorem c7_predictive_blend :
    (∀ (mix : Mixer) (cs : ColorScheme),
      getAttr (build_default_profile mix cs) "predictive" "color" =
        some (Jval.str
          (mix (cs.ramps.neutral 0.4) (cs.ramps.blue 0.4) 0.45))) ∧
    (getAttr (build_default_profile ref_mix ref_scheme) "predictive" "color" ≠
        getAttr (build_default_profile ref_mix ref_scheme) "primary" "color" ∧
      getAttr (build_default_profile ref_mix ref_scheme) "predictive" "color" ≠
        getAttr (build_default_profile ref_mix ref_scheme) "emphasis" "color" ∧
      getAttr (build_default_profile ref_mix ref_scheme) "predictive" "color" ≠
        getAttr (build_default_profile ref_mix ref_scheme) "comment" "color") := by
  constructor
  · intro mix cs
    rw [build_default_profile_eq]
    rfl
  · have hpred :
        getAttr (build_default_profile ref_mix ref_scheme) "predictive" "color" =
          some (Jval.str "#5F7BB8") := by
      rw [build_default_profile_eq]; rfl
    have hprim :
        getAttr (build_default_profile ref_mix ref_scheme) "primary" "color" =
          some (Jval.str "#FFFFFF") := by
      rw [build_default_profile_eq]; rfl
    have hemph :
        getAttr (build_default_profile ref_mix ref_scheme) "emphasis" "color" =
          some (Jval.str "#3B82F6") := by
      rw [build_default_profile_eq]; rfl
    have hcomm :
        getAttr (build_default_profile ref_mix ref_scheme) "comment" "color" =
          some (Jval.str "#FFFFFF") := by
      rw [build_default_profile_eq]; rfl
    refine ⟨?_, ?_, ?_⟩
    · rw [hpred, hprim]; simp
    · rw [hpred, hemph]; simp
    · rw [hpred, hcomm]; simp

/-- C2 is refuted by the code as written: `Object.keys({} as Syntax)`
enumerates the keys of the empty object literal, so the initialisation
loop of `build_default_syntax` runs zero times and the attribute
defaults (weight = "normal", underline = false, italic = false) never
reach the profile.  On the reference scheme the comment category — which
step 4 assigns only a color — has no weight, underline or italic
attribute at all, and its record consists of the color alone. -/
theorem c2_attribute_defaults_missing :
    getAttr (build_default_profile ref_mix ref_scheme) "comment" "weight" =
      none ∧
    getAttr (build_default_profile ref_mix ref_scheme) "comment" "underline" =
      none ∧
    getAttr (build_default_profile ref_mix ref_scheme) "comment" "italic" =
      none ∧
    getField (build_default_profile ref_mix ref_scheme) "comment" =
      some (Jval.obj [("color", Jval.str "#FFFFFF")]) ∧
    getAttr (build_default_profile ref_mix ref_scheme) "string" "weight" =
      none ∧
    getAttr (build_default_profile ref_mix ref_scheme) "keyword" "italic" =
      none ∧
    seed_fields = [] := by
  rw [build_default_profile_eq]
  exact ⟨rfl, rfl, rfl, rfl, rfl, rfl, rfl⟩

/-- C4: `merge_syntax` short-circuits to the identity when the scheme
carries no override data: the default profile is returned unchanged. -/
theorem c4_empty_override_identity (P : Jval) (cs : ColorScheme)
    (h : cs.override = none) : merge_profile P cs = P := by
  simp [merge_profile, h]

/-- C4 witness: the reference scheme carries no override, and merging
the default profile with it returns the profile itself. -/
theorem c4_empty_override_identity_witness :
    ref_scheme.override = none ∧
    merge_profile (build_default_profile ref_mix ref_scheme) ref_scheme =
      build_default_profile ref_mix ref_scheme :=
  ⟨rfl, c4_empty_override_identity (build_default_profile ref_mix ref_scheme)
    ref_scheme rfl⟩

/-- An override object whose single category key lies outside the closed
`Syntax` category set. -/
def bogus_override : Jval :=
  Jval.obj [("bogus", Jval.obj [("color", Jval.str "#123456")])]

/-- C3 counterexample: the claim that `merge_syntax` ignores or rejects
an unknown category key is false — given an override whose only key,
"bogus", names no `Syntax` category, the final profile carries the
unknown key and its attributes verbatim. -/
theorem c3_unknown_key_counterexample :
    getField (build_profile ref_mix (ref_scheme_with bogus_override)) "bogus" =
      some (Jval.obj [("color", Jval.str "#123456")]) := by
  unfold build_profile
  rw [build_default_profile_eq]
  rfl

/-- C3 as amended: `merge_syntax` silently carries every override key
that is absent from the default profile — known or unknown — into the
returned profile with its value unchanged. -/
theorem c3_unknown_key_carried (d cats : List (String × Jval))
    (cs : ColorScheme) (k : String) (v : Jval)
    (ho : cs.override = some (Jval.obj cats))
    (hd : jlookup k d = none)
    (hs : jlookup k cats = some v) :
    getField (merge_profile (Jval.obj d) cs) k = some v := by
  simp only [merge_profile, ho]
  rw [getField_dmerge_obj]
  simp [hd, hs]

/-- C3 amended witness: the unknown key of `bogus_override` survives the
merge against an empty default object. -/
theorem c3_unknown_key_carried_witness :
    getField (merge_profile (Jval.obj []) (ref_scheme_with bogus_override))
        "bogus" =
      some (Jval.obj [("color", Jval.str "#123456")]) :=
  c3_unknown_key_carried []
    [("bogus", Jval.obj [("color", Jval.str "#123456")])]
    (ref_scheme_with bogus_override) "bogus"
    (Jval.obj [("color", Jval.str "#123456")]) rfl rfl rfl

/-- C5: override precedence and sibling preservation — a category whose
override supplies `color = x` ends up with color `x` whatever the
default held; an attribute the override omits is retained from the
default; and a category the override omits is copied from the default
verbatim. -/
theorem c5_override_precedence :
    (∀ (cs : ColorScheme) (d cats st : List (String × Jval)) (C x : String),
      cs.override = some (Jval.obj cats) →
      jlookup C cats = some (Jval.obj st) →
      jlookup "color" st = some (Jval.str x) →
      getAttr (merge_profile (Jval.obj d) cs) C "color" =
        some (Jval.str x)) ∧
    (∀ (cs : ColorScheme) (d cats df st : List (String × Jval))
        (C a : String) (w : Jval),
      cs.override = some (Jval.obj cats) →
      jlookup C d = some (Jval.obj df) →
      jlookup C cats = some (Jval.obj st) →
      jlookup a st = none →
      jlookup a df = some w →
      getAttr (merge_profile (Jval.obj d) cs) C a = some w) ∧
    (∀ (cs : ColorScheme) (d cats : List (String × Jval)) (C : String)
        (v : Jval),
      cs.override = some (Jval.obj cats) →
      jlookup C cats = none →
      jlookup C d = some v →
      getField (merge_profile (Jval.obj d) cs) C = some v) := by
  refine ⟨?_, ?_, ?_⟩
  · intro cs d cats st C x ho hs hcol
    simp only [merge_profile, ho, getAttr]
    rw [getField_dmerge_obj]
    cases hd : jlookup C d with
    | none => simp [hs, getField, hcol]
    | some v =>
      simp only [hs, hd, Option.some_bind]
      cases v with
      | obj df =>
        rw [getField_dmerge_obj]
        cases hc : jlookup "color" df with
        | none => simp [hcol]
        | some u => simp [hcol, dmerge_str_right]
      | str s => simp [dmerge, getField, hcol]
      | bool b => simp [dmerge, getField, hcol]
      | arr l => simp [dmerge, getField, hcol]
  · intro cs d cats df st C a w ho hd hs hsa hda
    simp only [merge_profile, ho, getAttr]
    rw [getField_dmerge_obj]
    simp only [hd, hs, Option.some_bind]
    rw [getField_dmerge_obj]
    simp [hsa, hda]
  · intro cs d cats C v ho hs hd
    simp only [merge_profile, ho]
    rw [getField_dmerge_obj]
    simp [hs, hd]

/-- A small default profile and override used to witness the merge
claims: the override recolors `comment`, leaves its italic flag alone,
and omits `string` entirely. -/
def c5_default_fields : List (String × Jval) :=
  [("comment", Jval.obj [("color", Jval.str "#AAAAAA"),
                         ("italic", Jval.bool false)]),
   ("string", Jval.obj [("color", Jval.str "#BBBBBB")])]

def c5_override_fields : List (String × Jval) :=
  [("comment", Jval.obj [("color", Jval.str "#00FF00")])]

/-- C5 witness: on the concrete default and override above, the merged
comment color is the override's, the merged comment italic flag is the
default's, and the merged string category is the default's verbatim. -/
theorem c5_override_precedence_witness :
    getAttr (merge_profile (Jval.obj c5_default_fields)
        (ref_scheme_with (Jval.obj c5_override_fields))) "comment" "color" =
      some (Jval.str "#00FF00") ∧
    getAttr (merge_profile (Jval.obj c5_default_fields)
        (ref_scheme_with (Jval.obj c5_override_fields))) "comment" "italic" =
      some (Jval.bool false) ∧
    getField (merge_profile (Jval.obj c5_default_fields)
        (ref_scheme_with (Jval.obj c5_override_fields))) "string" =
      some (Jval.obj [("color", Jval.str "#BBBBBB")]) :=
  ⟨c5_override_precedence.1 (ref_scheme_with (Jval.obj c5_override_fields))
      c5_default_fields c5_override_fields
      [("color", Jval.str "#00FF00")] "comment" "#00FF00" rfl rfl rfl,
    c5_override_precedence.2.1 (ref_scheme_with (Jval.obj c5_override_fields))
      c5_default_fields c5_override_fields
      [("color", Jval.str "#AAAAAA"), ("italic", Jval.bool false)]
      [("color", Jval.str "#00FF00")] "comment" "italic"
      (Jval.bool false) rfl rfl rfl rfl rfl,
    c5_override_precedence.2.2 (ref_scheme_with (Jval.obj c5_override_fields))
      c5_default_fields c5_override_fields "string"
      (Jval.obj [("color", Jval.str "#BBBBBB")]) rfl rfl rfl⟩

/-- C9: when a category attribute is container-valued on both sides, the
merge concatenates — default elements first, then override elements —
rather than replacing the default list. -/
theorem c9_array_concat (cs : ColorScheme)
    (d cats df st : List (String × Jval)) (C a : String) (xs ys : List Jval)
    (ho : cs.override = some (Jval.obj cats))
    (hd : jlookup C d = some (Jval.obj df))
    (hs : jlookup C cats = some (Jval.obj st))
    (hda : jlookup a df = some (Jval.arr xs))
    (hsa : jlookup a st = some (Jval.arr ys)) :
    getAttr (merge_profile (Jval.obj d) cs) C a =
      some (Jval.arr (xs ++ ys)) := by
  simp only [merge_profile, ho, getAttr]
  rw [getField_dmerge_obj]
  simp only [hd, hs, Option.some_bind]
  rw [getField_dmerge_obj]
  simp [hda, hsa, dmerge]

/-- A default object and override with a container-valued attribute,
exercising the generic array branch of the merge. -/
def c9_default_fields : List (String × Jval) :=
  [("comment", Jval.obj [("fallbacks", Jval.arr [Jval.str "#111111"])])]

def c9_override_fields : List (String × Jval) :=
  [("comment", Jval.obj [("fallbacks", Jval.arr [Jval.str "#222222"])])]

/-- C9 witness: the two singleton lists concatenate, default first. -/
theorem c9_array_concat_witness :
    getAttr (merge_profile (Jval.obj c9_default_fields)
        (ref_scheme_with (Jval.obj c9_override_fields))) "comment"
        "fallbacks" =
      some (Jval.arr [Jval.str "#111111", Jval.str "#222222"]) :=
  c9_array_concat (ref_scheme_with (Jval.obj c9_override_fields))
    c9_default_fields c9_override_fields
    [("fallbacks", Jval.arr [Jval.str "#111111"])]
    [("fallbacks", Jval.arr [Jval.str "#222222"])]
    "comment" "fallbacks" [Jval.str "#111111"] [Jval.str "#222222"]
    rfl rfl rfl rfl rfl

/-- C10: the eight optional categories the `default_syntax` literal
never assigns are absent from the default profile, and are present in
the final profile exactly when the scheme's override supplies them. -/
theorem c10_optional_categories (mix : Mixer) (cs : ColorScheme)
    (hov : cs.override = none ∨ ∃ cats, cs.override = some (Jval.obj cats)) :
    ∀ k ∈ unassigned_optional_categories,
      getField (build_default_profile mix cs) k = none ∧
      (getField (build_profile mix cs) k ≠ none ↔
        ∃ cats, cs.override = some (Jval.obj cats) ∧ jlookup k cats ≠ none) := by
  intro k hk
  have hnone : jlookup k (default_fields mix cs) = none := by
    fin_cases hk <;> rfl
  have hdef : getField (build_default_profile mix cs) k = none := by
    rw [build_default_profile_eq]
    exact hnone
  refine ⟨hdef, ?_⟩
  rcases hov with h0 | ⟨cats, hc⟩
  · have hb : build_profile mix cs = build_default_profile mix cs := by
      simp [build_profile, merge_profile, h0]
    rw [hb, hdef]
    simp [h0]
  · have hb : build_profile mix cs =
        dmerge (Jval.obj (default_fields mix cs)) (Jval.obj cats) := by
      rw [build_profile, build_default_profile_eq]
      simp [merge_profile, hc]
    rw [hb, getField_dmerge_obj]
    simp only [hnone]
    constructor
    · intro h
      exact ⟨cats, hc, h⟩
    · intro h
      obtain ⟨cats', hc', h'⟩ := h
      rw [hc, Option.some_inj] at hc'
      rw [Jval.obj.inj hc']
      exact h'

/-- A scheme whose override supplies the optional category
`"function.definition"`. -/
def c10_override_fields : List (String × Jval) :=
  [("function.definition", Jval.obj [("color", Jval.str "#ABCDEF")])]

/-- C10 witness: on the reference ramps, `"function.definition"` is
absent from the default profile, and is present in the final profile of
the scheme that supplies it. -/
theorem c10_optional_categories_witness :
    (getField (build_default_profile ref_mix
        (ref_scheme_with (Jval.obj c10_override_fields)))
        "function.definition" = none ∧
      (getField (build_profile ref_mix
          (ref_scheme_with (Jval.obj c10_override_fields)))
          "function.definition" ≠ none ↔
        ∃ cats, (ref_scheme_with (Jval.obj c10_override_fields)).override =
            some (Jval.obj cats) ∧ jlookup "function.definition" cats ≠ none)) ∧
    (getField (build_default_profile ref_mix ref_scheme)
        "function.definition" = none ∧
      (getField (build_profile ref_mix ref_scheme) "function.definition" ≠
          none ↔
        ∃ cats, ref_scheme.override = some (Jval.obj cats) ∧
          jlookup "function.definition" cats ≠ none)) :=
  ⟨c10_optional_categories ref_mix
      (ref_scheme_with (Jval.obj c10_override_fields))
      (Or.inr ⟨c10_override_fields, rfl⟩) "function.definition"
      (by simp [unassigned_optional_categories]),
    c10_optional_categories ref_mix ref_scheme (Or.inl rfl)
      "function.definition" (by simp [unassigned_optional_categories])⟩

/-- A scheme exposing the minimum ramp set: every ramp the builder may
sample yields a non-empty color value, and so does the blend utility. -/
def valid_scheme (mix : Mixer) (cs : ColorScheme) : Prop :=
  (∀ l, cs.ramps.neutral l ≠ "") ∧
  (∀ l, cs.ramps.blue l ≠ "") ∧
  (∀ l, cs.ramps.orange l ≠ "") ∧
  (∀ l, cs.ramps.green l ≠ "") ∧
  (∀ l, cs.ramps.cyan l ≠ "") ∧
  (∀ l, cs.ramps.yellow l ≠ "") ∧
  (∀ a b w, mix a b w ≠ "")

/-- A well-typed override object, as the `ThemeSyntax` type promises at
the `merge_syntax` call site: a plain object mapping category keys to
style objects, in which any `color` attribute is a non-empty color
string. -/
def wf_override (o : Jval) : Prop :=
  match o with
  | Jval.obj cats =>
      ∀ p ∈ cats, ∃ st, p.2 = Jval.obj st ∧
        ∀ q ∈ st, q.1 = "color" → ∃ s, q.2 = Jval.str s ∧ s ≠ ""
  | _ => False

/-- Category `k` of profile `P` is assigned a non-empty color. -/
def has_color (P : Jval) (k : String) : Prop :=
  ∃ c, getAttr P k "color" = some (Jval.str c) ∧ c ≠ ""

/-- Every required category of the `default_syntax` literal carries a
style object whose color is one of the sampled or blended values, hence
non-empty on a valid scheme. -/
theorem default_color_spec (mix : Mixer) (cs : ColorScheme) :
    ∀ k ∈ required_categories,
      ∃ st c, jlookup k (default_fields mix cs) = some (Jval.obj st) ∧
        jlookup "color" st = some (Jval.str c) ∧
        (valid_scheme mix cs → c ≠ "") := by
  intro k hk
  fin_cases hk <;>
    first
      | exact ⟨_, _, rfl, rfl, fun h => h.1 _⟩
      | exact ⟨_, _, rfl, rfl, fun h => h.2.1 _⟩
      | exact ⟨_, _, rfl, rfl, fun h => h.2.2.1 _⟩
      | exact ⟨_, _, rfl, rfl, fun h => h.2.2.2.1 _⟩
      | exact ⟨_, _, rfl, rfl, fun h => h.2.2.2.2.1 _⟩
      | exact ⟨_, _, rfl, rfl, fun h => h.2.2.2.2.2.1 _⟩
      | exact ⟨_, _, rfl, rfl, fun h => h.2.2.2.2.2.2 _ _ _⟩

/-- C1: on every valid scheme (minimum ramp set exposed, well-typed or
absent override), the default profile assigns a non-empty color to every
required category, and the final profile after the merge still does —
merging never removes a color the default assigned. -/
theorem c1_totality (mix : Mixer) (cs : ColorScheme)
    (hvalid : valid_scheme mix cs)
    (hov : cs.override = none ∨ ∃ o, cs.override = some o ∧ wf_override o) :
    (∀ k ∈ required_categories, has_color (build_default_profile mix cs) k) ∧
    (∀ k ∈ required_categories, has_color (build_profile mix cs) k) := by
  have hdef : ∀ k ∈ required_categories,
      has_color (build_default_profile mix cs) k := by
    intro k hk
    obtain ⟨st, c, h1, h2, h3⟩ := default_color_spec mix cs k hk
    refine ⟨c, ?_, h3 hvalid⟩
    rw [build_default_profile_eq]
    simp [getAttr, getField, h1, h2]
  refine ⟨hdef, ?_⟩
  intro k hk
  rcases hov with h0 | ⟨o, ho, hwf⟩
  · have hb : build_profile mix cs = build_default_profile mix cs := by
      simp [build_profile, merge_profile, h0]
    rw [hb]
    exact hdef k hk
  · cases o with
    | str s => simp [wf_override] at hwf
    | bool b => simp [wf_override] at hwf
    | arr l => simp [wf_override] at hwf
    | obj cats =>
      have hwf' : ∀ p ∈ cats, ∃ st, p.2 = Jval.obj st ∧
          ∀ q ∈ st, q.1 = "color" → ∃ s, q.2 = Jval.str s ∧ s ≠ "" := hwf
      obtain ⟨st, c, h1, h2, h3⟩ := default_color_spec mix cs k hk
      have hb : build_profile mix cs =
          dmerge (Jval.obj (default_fields mix cs)) (Jval.obj cats) := by
        rw [build_profile, build_default_profile_eq]
        simp [merge_profile, ho]
      unfold has_color getAttr
      rw [hb, getField_dmerge_obj, h1]
      cases hc : jlookup k cats with
      | none =>
        exact ⟨c, by simp [getField, h2], h3 hvalid⟩
      | some w =>
        obtain ⟨stw, hwobj, hcolor_ok⟩ := hwf' (k, w) (jlookup_eq_some_mem hc)
        subst hwobj
        simp only [Option.some_bind]
        rw [getField_dmerge_obj, h2]
        cases hcc : jlookup "color" stw with
        | none =>
          exact ⟨c, rfl, h3 hvalid⟩
        | some q =>
          obtain ⟨s', hq, hs'⟩ :=
            hcolor_ok ("color", q) (jlookup_eq_some_mem hcc) rfl
          subst hq
          refine ⟨s', ?_, hs'⟩
          show some (dmerge (Jval.str c) (Jval.str s')) = some (Jval.str s')
          rw [dmerge_str_right]

/-- C1 witness: the reference scheme is valid and carries no override;
the comment category of its default profile and the keyword category of
its final profile both carry a non-empty color. -/
theorem c1_totality_witness :
    has_color (build_default_profile ref_mix ref_scheme) "comment" ∧
    has_color (build_profile ref_mix ref_scheme) "keyword" :=
  ⟨(c1_totality ref_mix ref_scheme
      ⟨fun _ => by simp [ref_scheme, ref_ramps], fun _ => by simp [ref_scheme, ref_ramps],
       fun _ => by simp [ref_scheme, ref_ramps], fun _ => by simp [ref_scheme, ref_ramps],
       fun _ => by simp [ref_scheme, ref_ramps], fun _ => by simp [ref_scheme, ref_ramps],
       fun _ _ _ => by simp [ref_mix]⟩
      (Or.inl rfl)).1 "comment" (by simp [required_categories]),
    (c1_totality ref_mix ref_scheme
      ⟨fun _ => by simp [ref_scheme, ref_ramps], fun _ => by simp [ref_scheme, ref_ramps],
       fun _ => by simp [ref_scheme, ref_ramps], fun _ => by simp [ref_scheme, ref_ramps],
       fun _ => by simp [ref_scheme, ref_ramps], fun _ => by simp [ref_scheme, ref_ramps],
       fun _ _ _ => by simp [ref_mix]⟩
      (Or.inl rfl)).2 "keyword" (by simp [required_categories])⟩
